import Mathlib

/-!
Verification development for the XDP-Proxy loader (`src/loader/prog.c`).

The loader's `main` is embedded shallowly as three pure functions over
environments that record the results of the external calls the C code makes
(libbpf/libxdp, `stat`, `time`, `if_nametoindex`, ...):

* `startup`   — `main` from the CLI parse down to the initial rule update
                (prog.c lines 45–271);
* `loopRun`   — the `while (cont)` control loop (lines 273–326), driven by a
                finite list of per-iteration environments;
* `shutdown`  — the teardown sequence after the loop (lines 328–364).

Each function returns the ordered trace of observable actions (attach, detach,
pin, rule update, warnings, errors, sleeps, ...) next to its result state.
Purely informational log lines are not modelled; every error/warning log and
every externally visible operation is.  Machine-integer conversions that the C
code performs (`unsigned int` truncation, unsigned-to-`int` conversion) are
made explicit with `% 2^32` arithmetic.
-/

namespace XdpProxy

/-- `2^32`, the modulus of the C `unsigned int` type on the target platform. -/
def UINT32_MOD : Nat := 4294967296

/-- C conversion of a (64-bit, signed) integer value to `unsigned int`:
reduce modulo `2^32`.  Used for `unsigned int end_time = time(NULL) + cli.time`
(prog.c line 257). -/
def uint32OfInt (x : Int) : Nat := (x % (UINT32_MOD : Int)).toNat

/-- C conversion of an `unsigned int` value to `int` (two's complement
wrap-around, the behaviour of every mainstream compiler).  Used for
`int ifidx = if_nametoindex(...)` (prog.c line 130): `if_nametoindex` returns
`unsigned int` (`0` on failure, per POSIX). -/
def int32OfUInt (n : Nat) : Int :=
  let m := n % UINT32_MOD
  if m < 2147483648 then (m : Int) else (m : Int) - (UINT32_MOD : Int)

/-- Observable actions of the loader, in program order.  Error/warning events
correspond to the `log_msg`/`fprintf` calls of prog.c; the others to the
externally visible operations (libxdp/libbpf calls, sleeps). -/
inductive Ev where
  | printHelp
  | errLoadConfig
  | printList
  | errNoInterface
  | errRlimit
  | errIfIdx
  | loadObj
  | errLoadObj
  | attach
  | errAttach
  | errMapStats
  | errMapFwdRules
  | unpinMap
  | warnUnpin
  | pinMap
  | warnPin
  | pinOkLog
  | updateRules
  | warnReloadParse
  | calcStats
  | warnStats
  | sleep (us : Nat)
  | detach
  | errDetach
  | closeProg
  deriving DecidableEq

/-- The fields of `config__t` that prog.c's `main` reads.  `interface = none`
models a NULL `cfg.interface` pointer. -/
structure Config where
  interface : Option String
  verbose : Int
  pin_maps : Bool
  update_time : Int
  no_stats : Bool
  stats_per_second : Bool
  stdout_update_time : Nat
  deriving DecidableEq

/-- The fields of `cli_t` that decide control flow in `main`. -/
structure Cli where
  help : Bool
  list : Bool
  time : Int
  skb : Bool
  offload : Bool
  deriving DecidableEq

/-- Results of the external calls `main` performs before the control loop,
in the order the C code makes them.  `ifNameToIndexRet` is the raw
`unsigned int` result of `if_nametoindex` (`0` means the lookup failed).
`cfg0` is the configuration produced by the initial `load_config`.
`timeAtEnd`, `timeAtLastUpdate`, `timeAtLastConfig` are the three `time(NULL)`
reads at prog.c lines 257, 260, 261. -/
structure Env where
  cli : Cli
  loadConfigRet : Int
  cfg0 : Config
  setrlimitFails : Bool
  ifNameToIndexRet : Nat
  loadObjOk : Bool
  attachRet : Int
  mapStatsFd : Int
  mapFwdRulesFd : Int
  unpinPreRet : Int
  pinRet : Int
  timeAtEnd : Int
  timeAtLastUpdate : Int
  timeAtLastConfig : Int
  deriving DecidableEq

/-- Loop-constant data computed before the `while` loop: `end_time`
(prog.c line 257, an `unsigned int`) and `sleep_time` (line 263,
`cfg.stdout_update_time * 1000`, an `unsigned int`). -/
structure LoopCtx where
  endTime : Nat
  sleepTime : Nat
  deriving DecidableEq

/-- Mutable state of the control loop: the in-memory config `cfg`, the
`last_update_check` and `last_config_check` timestamps, and the global
`doing_stats` flag. -/
structure LoopState where
  cfg : Config
  lastUpdateCheck : Int
  lastConfigCheck : Int
  doingStats : Bool
  deriving DecidableEq

/-- External inputs of one iteration of the `while (cont)` loop:
`contAtHead` is the value of the global `cont` flag at this iteration's head
check (the signal handler may have cleared it at any earlier point);
`curTime` is `time(NULL)` at line 276; `statOk`/`mtime` are the `stat` result
and `st_mtime` at line 288; `loadRet`/`newCfg` are the result of the reload
`load_config` call and the config it leaves in memory; `timeAfterReload` and
`timeAfterCheck` are the `time(NULL)` reads at lines 299 and 309; `statsFail`
is whether `calc_stats` returns nonzero. -/
structure IterEnv where
  contAtHead : Bool
  curTime : Int
  statOk : Bool
  mtime : Int
  loadRet : Int
  newCfg : Config
  timeAfterReload : Int
  timeAfterCheck : Int
  statsFail : Bool
  deriving DecidableEq

/-- `unpin_needed_maps` (prog.c lines 31–43): attempt the unpin; when it fails
and `ignore_errors` is unset, log a warning. -/
def unpin_needed_maps (unpinRet : Int) (ignore_errors : Bool) : List Ev :=
  Ev.unpinMap :: (if unpinRet ≠ 0 ∧ ignore_errors = false then [Ev.warnUnpin] else [])

/-- Outcome of the startup phase: either `main` returned (with an exit code,
`0` = `EXIT_SUCCESS`, `1` = `EXIT_FAILURE`) or the control loop is entered. -/
inductive StartOutcome where
  | exited (code : Nat)
  | running (ctx : LoopCtx) (st : LoopState)
  deriving DecidableEq

/-- `true` iff the startup phase reached the control loop. -/
def isRunning : StartOutcome → Bool
  | StartOutcome.running _ _ => true
  | StartOutcome.exited _ => false

/-- The startup phase of `main` (prog.c lines 45–271), from the CLI parse to
the initial `update_fwd_rules`, as a trace of actions plus an outcome.
Mirrors the C control flow branch by branch; note that the interface-index
check is `int32OfUInt env.ifNameToIndexRet < 0`, exactly the C comparison
`ifidx < 0` after the unsigned-to-int conversion at line 130. -/
def startup (env : Env) : List Ev × StartOutcome :=
  if env.cli.help then ([Ev.printHelp], StartOutcome.exited 0)
  else if env.loadConfigRet ≠ 0 then ([Ev.errLoadConfig], StartOutcome.exited 1)
  else if env.cli.list then ([Ev.printList], StartOutcome.exited 0)
  else
    match env.cfg0.interface with
    | none => ([Ev.errNoInterface], StartOutcome.exited 1)
    | some _ =>
      if env.setrlimitFails then ([Ev.errRlimit], StartOutcome.exited 1)
      else if int32OfUInt env.ifNameToIndexRet < 0 then ([Ev.errIfIdx], StartOutcome.exited 1)
      else if env.loadObjOk = false then ([Ev.loadObj, Ev.errLoadObj], StartOutcome.exited 1)
      else if env.attachRet ≠ 0 then
        ([Ev.loadObj, Ev.attach, Ev.errAttach], StartOutcome.exited 1)
      else if env.mapStatsFd < 0 then
        ([Ev.loadObj, Ev.attach, Ev.errMapStats], StartOutcome.exited 1)
      else if env.mapFwdRulesFd < 0 then
        ([Ev.loadObj, Ev.attach, Ev.errMapFwdRules], StartOutcome.exited 1)
      else
        ([Ev.loadObj, Ev.attach] ++
          (if env.cfg0.pin_maps then
            unpin_needed_maps env.unpinPreRet true ++
              Ev.pinMap :: (if env.pinRet ≠ 0 then [Ev.warnPin] else [Ev.pinOkLog])
          else []) ++ [Ev.updateRules],
         StartOutcome.running
           { endTime := if env.cli.time > 0 then uint32OfInt (env.timeAtEnd + env.cli.time) else 0
             sleepTime := env.cfg0.stdout_update_time * 1000 % UINT32_MOD }
           { cfg := env.cfg0
             lastUpdateCheck := env.timeAtLastUpdate
             lastConfigCheck := env.timeAtLastConfig
             doingStats := env.cfg0.no_stats = false })

/-- The auto-update block of one loop iteration (prog.c lines 284–310):
when the configured interval is positive and strictly more than that many
seconds have elapsed since `last_update_check`, and the `stat` call succeeded
with an `st_mtime` strictly newer than `last_config_check`, reload the config
(warning on parse failure), push the rules, and set `last_config_check` to the
current time; in every due evaluation set `last_update_check` to the current
time. -/
def reloadStep (st : LoopState) (e : IterEnv) : List Ev × LoopState :=
  if st.cfg.update_time > 0 ∧ e.curTime - st.lastUpdateCheck > st.cfg.update_time then
    if e.statOk = true ∧ e.mtime > st.lastConfigCheck then
      ((if e.loadRet ≠ 0 then [Ev.warnReloadParse] else []) ++ [Ev.updateRules],
       { cfg := e.newCfg
         lastUpdateCheck := e.timeAfterCheck
         lastConfigCheck := e.timeAfterReload
         doingStats :=
           if e.newCfg.no_stats = false ∧ st.doingStats = false then true else st.doingStats })
    else ([], { st with lastUpdateCheck := e.timeAfterCheck })
  else ([], st)

/-- The stats block of one loop iteration (prog.c lines 313–319), evaluated on
the configuration as left by the reload block of the same iteration. -/
def statsEvs (st : LoopState) (e : IterEnv) : List Ev :=
  if st.cfg.no_stats = false then
    if e.statsFail then [Ev.calcStats, Ev.warnStats] else [Ev.calcStats]
  else []

/-- One full body of the `while (cont)` loop after its head checks:
reload block, stats block, then `usleep(sleep_time)`. -/
def loopIter (ctx : LoopCtx) (st : LoopState) (e : IterEnv) : List Ev × LoopState :=
  ((reloadStep st e).1 ++ statsEvs (reloadStep st e).2 e ++ [Ev.sleep ctx.sleepTime],
   (reloadStep st e).2)

/-- How the control loop ended: the `break` of the end-time check
(line 279–282), the `while (cont)` head test observing a cleared flag, or the
supplied list of iteration environments running out (model artifact: the run
is not yet finished). -/
inductive LoopExit where
  | timeExpired
  | flagCleared
  | fuelOut
  deriving DecidableEq

/-- The `while (cont)` loop (prog.c lines 273–326) over a finite list of
per-iteration environments.  Each iteration first tests `cont`, then the
end-time break `end_time > 0 && cur_time >= end_time`, then runs the body. -/
def loopRun (ctx : LoopCtx) (st : LoopState) : List IterEnv → List Ev × LoopState × LoopExit
  | [] => ([], st, LoopExit.fuelOut)
  | e :: rest =>
    if e.contAtHead = false then ([], st, LoopExit.flagCleared)
    else if 0 < ctx.endTime ∧ (ctx.endTime : Int) ≤ e.curTime then
      ([], st, LoopExit.timeExpired)
    else
      ((loopIter ctx st e).1 ++ (loopRun ctx (loopIter ctx st e).2 rest).1,
       (loopRun ctx (loopIter ctx st e).2 rest).2)

/-- Results of the external calls of the teardown sequence: the
`attach_xdp(..., detach = 1, ...)` result and the final `unpin_map` result. -/
structure ShutdownEnv where
  detachRet : Int
  unpinRet : Int
  deriving DecidableEq

/-- The teardown sequence after the loop (prog.c lines 328–364): detach; on
detach failure log an error and return `EXIT_FAILURE` immediately; otherwise
unpin (warning only) when `cfg.pin_maps` is set, close the program handle and
return `EXIT_SUCCESS`.  `cfg` is the in-memory config at loop exit. -/
def shutdown (cfg : Config) (sd : ShutdownEnv) : List Ev × Nat :=
  if sd.detachRet ≠ 0 then ([Ev.detach, Ev.errDetach], 1)
  else
    (Ev.detach :: (if cfg.pin_maps then unpin_needed_maps sd.unpinRet false else []) ++
       [Ev.closeProg], 0)

/-- A complete run of `main`: startup, then (when the loop is entered) the
control loop and the teardown.  `none` when the iteration-environment list is
exhausted before the loop exits (the run is still in progress). -/
def runProgram (env : Env) (iters : List IterEnv) (sd : ShutdownEnv) :
    Option (List Ev × Nat) :=
  match startup env with
  | (evs, StartOutcome.exited code) => some (evs, code)
  | (evs, StartOutcome.running ctx st) =>
    match loopRun ctx st iters with
    | (_, _, LoopExit.fuelOut) => none
    | (evsL, stL, LoopExit.timeExpired) =>
      some (evs ++ evsL ++ (shutdown stL.cfg sd).1, (shutdown stL.cfg sd).2)
    | (evsL, stL, LoopExit.flagCleared) =>
      some (evs ++ evsL ++ (shutdown stL.cfg sd).1, (shutdown stL.cfg sd).2)

/-- Number of `sleep` actions in a trace (one per executed loop-body
iteration). -/
def sleepCount : List Ev → Nat
  | [] => 0
  | Ev.sleep _ :: r => sleepCount r + 1
  | _ :: r => sleepCount r

/-! ### Concrete fixtures used by the closed evaluation theorems -/

/-- A minimal configuration: interface set, no pinning, no auto-update,
stats disabled, one-second display interval. -/
def cfgBase : Config :=
  { interface := some "eth0", verbose := 0, pin_maps := false, update_time := 0,
    no_stats := true, stats_per_second := false, stdout_update_time := 1 }

/-- A configuration with a 30-second reload interval and stats enabled. -/
def cfgReload : Config :=
  { cfgBase with update_time := 30, no_stats := false }

/-- CLI with no help/list request and an unbounded run. -/
def cliBase : Cli :=
  { help := false, list := false, time := 0, skb := false, offload := false }

/-- A startup environment in which every external call succeeds. -/
def envBase : Env :=
  { cli := cliBase, loadConfigRet := 0, cfg0 := cfgBase, setrlimitFails := false,
    ifNameToIndexRet := 3, loadObjOk := true, attachRet := 0,
    mapStatsFd := 5, mapFwdRulesFd := 6, unpinPreRet := 0, pinRet := 0,
    timeAtEnd := 1000, timeAtLastUpdate := 1000, timeAtLastConfig := 1000 }

/-- `envBase`, except the mandatory `map_stats` BPF map is missing
(`get_map_fd` returns `-1`) while the attach itself succeeded. -/
def envMapStatsFail : Env := { envBase with mapStatsFd := -1 }

/-- `envBase`, except the interface lookup fails: `if_nametoindex`
returns `0`. -/
def envIfIdxFail : Env := { envBase with ifNameToIndexRet := 0 }

/-- Loop context with no end time and a one-second sleep. -/
def ctxPlain : LoopCtx := { endTime := 0, sleepTime := 1000 }

/-- Loop state at time origin with the reload-enabled configuration. -/
def stReload : LoopState :=
  { cfg := cfgReload, lastUpdateCheck := 0, lastConfigCheck := 0, doingStats := true }

/-- Iteration at time 30 (exactly the interval after the last check) with a
touched config file (mtime 100 newer than last reload time 0). -/
def eC2 : IterEnv :=
  { contAtHead := true, curTime := 30, statOk := true, mtime := 100, loadRet := 0,
    newCfg := cfgReload, timeAfterReload := 30, timeAfterCheck := 30, statsFail := false }

/-- Iteration at time 61 with file mtime 150, matching the spec's worked
example; the reload's `time(NULL)` reads return 61. -/
def eC5 : IterEnv :=
  { contAtHead := true, curTime := 61, statOk := true, mtime := 150, loadRet := 0,
    newCfg := cfgReload, timeAfterReload := 61, timeAfterCheck := 61, statsFail := false }

/-- Iteration without a due reload (time 5, stat failing), flag set. -/
def eC7 : IterEnv :=
  { contAtHead := true, curTime := 5, statOk := false, mtime := 0, loadRet := 0,
    newCfg := cfgReload, timeAfterReload := 5, timeAfterCheck := 5, statsFail := false }

/-- `eC7` as observed after the signal handler cleared the flag. -/
def eC7b : IterEnv := { eC7 with contAtHead := false }

/-- Loop context with end time 10 and a one-second sleep. -/
def ctxW6 : LoopCtx := { endTime := 10, sleepTime := 1000 }

/-- Iteration observed at time 5, before the end time 10. -/
def eA6 : IterEnv := eC7

/-- Iteration observed exactly at the end time 10. -/
def eB6 : IterEnv := { eC7 with curTime := 10 }

/-- `envBase` with pinning enabled, a failing pre-pin unpin (stale pin,
result 3) and a succeeding pin. -/
def envPin : Env :=
  { envBase with cfg0 := { cfgBase with pin_maps := true }, unpinPreRet := 3, pinRet := 0 }

/-- `cfgReload` with a 2-second display interval. -/
def cfgW9 : Config := { cfgReload with stdout_update_time := 2 }

/-- `cfgReload` with a 7-second display interval (installed by a reload). -/
def cfgW9b : Config := { cfgReload with stdout_update_time := 7 }

/-- `envBase` loading `cfgW9`. -/
def envW9 : Env := { envBase with cfg0 := cfgW9 }

/-- The loop context `startup envW9` computes: no end time, 2000-unit sleep. -/
def ctxW9 : LoopCtx := { endTime := 0, sleepTime := 2000 }

/-- The loop state `startup envW9` computes. -/
def stW9 : LoopState :=
  { cfg := cfgW9, lastUpdateCheck := 1000, lastConfigCheck := 1000, doingStats := true }

/-- A due reload at time 1031 (31 s after the last check, mtime 1010 newer
than 1000) that installs `cfgW9b`. -/
def eW9 : IterEnv :=
  { contAtHead := true, curTime := 1031, statOk := true, mtime := 1010, loadRet := 0,
    newCfg := cfgW9b, timeAfterReload := 1031, timeAfterCheck := 1031, statsFail := false }

/-- The due reload of the spec's worked example with a failing parse
(`load_config` returns 3). -/
def eW10 : IterEnv := { eC5 with loadRet := 3 }

/-! ### Claim theorems -/

/-- C1: evaluation of the code at the failing input.  In the run where the
attach succeeds but the mandatory `map_stats` map is then missing, `main`
returns `EXIT_FAILURE` at once: the complete trace holds one attach action and
no detach action, so detach is not invoked exactly once per successful attach
on this error path. -/
theorem c1_detach_skipped_after_map_failure :
    runProgram envMapStatsFail [] { detachRet := 0, unpinRet := 0 } =
      some ([Ev.loadObj, Ev.attach, Ev.errMapStats], 1) ∧
    [Ev.loadObj, Ev.attach, Ev.errMapStats].count Ev.attach = 1 ∧
    [Ev.loadObj, Ev.attach, Ev.errMapStats].count Ev.detach = 0 := by
  refine ⟨by decide, by decide, by decide⟩

/-- C2 counterexample: exactly `interval` (30) seconds elapsed since the last
check and the file's mtime (100) is strictly newer than the last observed
reload time (0), so the claim's condition ("at least that many seconds") holds,
yet no reload is performed: the code's elapsed-time test is strict (`>`). -/
theorem c2_counterexample :
    stReload.cfg.update_time = 30 ∧
    eC2.curTime - stReload.lastUpdateCheck = 30 ∧
    eC2.statOk = true ∧ eC2.mtime > stReload.lastConfigCheck ∧
    Ev.updateRules ∉ (loopIter ctxPlain stReload eC2).1 := by
  refine ⟨by decide, by decide, by decide, by decide, by decide⟩

/-- C2 (amended): in a control-loop iteration, a configuration reload (with
its rule push) occurs iff the configured interval is positive, STRICTLY more
than that many seconds elapsed since the last check, the stat of the config
file succeeded, and the file's mtime is strictly newer than the last observed
reload time.  In particular a reload with an unchanged file, or within the
interval, never occurs. -/
theorem c2_reload_iff (ctx : LoopCtx) (st : LoopState) (e : IterEnv) :
    Ev.updateRules ∈ (loopIter ctx st e).1 ↔
      (st.cfg.update_time > 0 ∧ e.curTime - st.lastUpdateCheck > st.cfg.update_time ∧
       e.statOk = true ∧ e.mtime > st.lastConfigCheck) := by
  unfold loopIter reloadStep statsEvs
  split_ifs <;> simp_all

/-- C3: evaluation of the code at the failing input.  When `if_nametoindex`
fails (returns the unsigned value `0`), the check `ifidx < 0` at prog.c:132 is
false (0 is not negative), so startup does NOT abort: no interface-index error
is logged, the kernel program image is loaded, the attach proceeds and the
control loop is entered. -/
theorem c3_startup_proceeds_after_ifidx_failure :
    envIfIdxFail.ifNameToIndexRet = 0 ∧
    Ev.errIfIdx ∉ (startup envIfIdxFail).1 ∧
    Ev.loadObj ∈ (startup envIfIdxFail).1 ∧
    isRunning (startup envIfIdxFail).2 = true := by
  refine ⟨by decide, by decide, by decide, by decide⟩

/-- C4 counterexample: when the detach fails during shutdown, the process
exits with failure status and the program-handle release is NOT attempted —
no `closeProg` action is in the teardown trace — contradicting the claim that
the release is always attempted even when detach fails. -/
theorem c4_counterexample :
    (shutdown cfgBase { detachRet := 5, unpinRet := 0 }).2 = 1 ∧
    Ev.errDetach ∈ (shutdown cfgBase { detachRet := 5, unpinRet := 0 }).1 ∧
    Ev.closeProg ∉ (shutdown cfgBase { detachRet := 5, unpinRet := 0 }).1 := by
  refine ⟨by decide, by decide, by decide⟩

/-- C4 (amended): during shutdown, a detach failure is reported and causes a
non-zero exit, and then the program-handle release is skipped — the release is
attempted exactly when the detach succeeds; an unpin failure is only a warning
and leaves the exit status zero. -/
theorem c4_shutdown_behaviour (cfg : Config) (sd : ShutdownEnv) :
    ((shutdown cfg sd).2 = if sd.detachRet ≠ 0 then 1 else 0) ∧
    (Ev.closeProg ∈ (shutdown cfg sd).1 ↔ sd.detachRet = 0) ∧
    (Ev.errDetach ∈ (shutdown cfg sd).1 ↔ sd.detachRet ≠ 0) ∧
    (Ev.warnUnpin ∈ (shutdown cfg sd).1 ↔
      sd.detachRet = 0 ∧ cfg.pin_maps = true ∧ sd.unpinRet ≠ 0) := by
  unfold shutdown unpin_needed_maps
  split_ifs <;> simp_all

/-- C5 counterexample: a reload occurs at time 61 with file mtime 150 (the
spec's worked example); afterwards the last-observed timestamp is the current
wall-clock time 61, not the file's modification time 150. -/
theorem c5_counterexample :
    Ev.updateRules ∈ (loopIter ctxPlain stReload eC5).1 ∧
    eC5.mtime = 150 ∧
    (loopIter ctxPlain stReload eC5).2.lastConfigCheck = 61 ∧
    (61 : Int) ≠ 150 := by
  refine ⟨by decide, by decide, by decide, by decide⟩

/-- C5 (amended): after every reload evaluation that is due, the last-check
timestamp is updated (to the current time) regardless of the outcome; and
whenever a reload occurs, the last-observed timestamp is updated to the
current wall-clock time read right after the reload — not to the file's
modification time. -/
theorem c5_timestamps (ctx : LoopCtx) (st : LoopState) (e : IterEnv)
    (hdue : st.cfg.update_time > 0 ∧ e.curTime - st.lastUpdateCheck > st.cfg.update_time) :
    (loopIter ctx st e).2.lastUpdateCheck = e.timeAfterCheck ∧
    (e.statOk = true ∧ e.mtime > st.lastConfigCheck →
      (loopIter ctx st e).2.lastConfigCheck = e.timeAfterReload) := by
  unfold loopIter reloadStep
  split_ifs <;> simp_all

/-- C5 witness: the amended timestamp behaviour at the concrete reload of the
spec's worked example (time 61, mtime 150). -/
theorem c5_timestamps_witness :
    (loopIter ctxPlain stReload eC5).2.lastUpdateCheck = eC5.timeAfterCheck ∧
    (eC5.statOk = true ∧ eC5.mtime > stReload.lastConfigCheck →
      (loopIter ctxPlain stReload eC5).2.lastConfigCheck = eC5.timeAfterReload) :=
  c5_timestamps ctxPlain stReload eC5 (by decide)

/-! ### Helper lemmas shared by the loop theorems -/

lemma sleepCount_append (l1 l2 : List Ev) :
    sleepCount (l1 ++ l2) = sleepCount l1 + sleepCount l2 := by
  induction l1 with
  | nil => simp [sleepCount]
  | cons h t ih => cases h <;> simp [sleepCount, ih] <;> omega

lemma loopIter_sleepCount (ctx : LoopCtx) (st : LoopState) (e : IterEnv) :
    sleepCount (loopIter ctx st e).1 = 1 := by
  unfold loopIter reloadStep statsEvs
  split_ifs <;> simp [sleepCount, sleepCount_append]

lemma loopIter_sleep_mem (ctx : LoopCtx) (st : LoopState) (e : IterEnv) (n : Nat)
    (h : Ev.sleep n ∈ (loopIter ctx st e).1) : n = ctx.sleepTime := by
  unfold loopIter reloadStep statsEvs at h
  split_ifs at h <;> simp_all

lemma loopRun_cons_flag (ctx : LoopCtx) (st : LoopState) (e : IterEnv)
    (rest : List IterEnv) (hc : e.contAtHead = false) :
    loopRun ctx st (e :: rest) = ([], st, LoopExit.flagCleared) := by
  simp [loopRun, hc]

lemma loopRun_cons_break (ctx : LoopCtx) (st : LoopState) (e : IterEnv)
    (rest : List IterEnv) (hc : e.contAtHead = true)
    (hbr : 0 < ctx.endTime ∧ (ctx.endTime : Int) ≤ e.curTime) :
    loopRun ctx st (e :: rest) = ([], st, LoopExit.timeExpired) := by
  simp [loopRun, hc, hbr]

lemma loopRun_cons_body (ctx : LoopCtx) (st : LoopState) (e : IterEnv)
    (rest : List IterEnv) (hc : e.contAtHead = true)
    (hbr : ¬ (0 < ctx.endTime ∧ (ctx.endTime : Int) ≤ e.curTime)) :
    loopRun ctx st (e :: rest) =
      ((loopIter ctx st e).1 ++ (loopRun ctx (loopIter ctx st e).2 rest).1,
       (loopRun ctx (loopIter ctx st e).2 rest).2) := by
  simp [loopRun, hc, hbr]

set_option maxHeartbeats 1000000 in
/-- Inversion of `startup` on the loop-entering branch: the loop context and
initial state it produces. -/
lemma startup_running (env : Env) (ctx : LoopCtx) (st : LoopState)
    (h : (startup env).2 = StartOutcome.running ctx st) :
    ctx = { endTime := if env.cli.time > 0 then uint32OfInt (env.timeAtEnd + env.cli.time) else 0
            sleepTime := env.cfg0.stdout_update_time * 1000 % UINT32_MOD } ∧
    st = { cfg := env.cfg0
           lastUpdateCheck := env.timeAtLastUpdate
           lastConfigCheck := env.timeAtLastConfig
           doingStats := env.cfg0.no_stats = false } := by
  unfold startup at h
  rcases hmi : env.cfg0.interface with _ | s <;> rw [hmi] at h <;>
    simp only [apply_ite Prod.snd] at h
  all_goals split_ifs at h <;> simp_all
  obtain ⟨hc1, -⟩ := h
  rw [← hc1]
  have hng : ¬ 0 < env.cli.time := by omega
  simp [hng]

/-! ### Claim theorems, continued -/

/-- C6: bounded-duration termination.  (1) When the computed end time is
positive, the termination flag stays set and some supplied iteration reaches
the end time, the loop exits through the end-time break, and it performs
exactly one sleep per iteration observed strictly before the end time — no
body work and no sleep happens at or after the first check past the end time,
so the loop stops within one display interval of the duration elapsing.
(2) When the end time is zero the end-time break never fires.  (3) A run
duration of zero (or negative) makes startup compute end time zero, i.e. the
run is unbounded by time. -/
theorem c6_bounded_duration :
    (∀ (ctx : LoopCtx) (st : LoopState) (iters : List IterEnv),
      0 < ctx.endTime →
      (∀ e ∈ iters, e.contAtHead = true) →
      (∃ e ∈ iters, (ctx.endTime : Int) ≤ e.curTime) →
      (loopRun ctx st iters).2.2 = LoopExit.timeExpired ∧
      sleepCount (loopRun ctx st iters).1 =
        (iters.takeWhile (fun e => decide (e.curTime < (ctx.endTime : Int)))).length) ∧
    (∀ (ctx : LoopCtx) (st : LoopState) (iters : List IterEnv),
      ctx.endTime = 0 → (loopRun ctx st iters).2.2 ≠ LoopExit.timeExpired) ∧
    (∀ (env : Env) (ctx : LoopCtx) (st : LoopState),
      env.cli.time ≤ 0 → (startup env).2 = StartOutcome.running ctx st →
      ctx.endTime = 0) := by
  refine ⟨?_, ?_, ?_⟩
  · intro ctx st iters hpos
    induction iters generalizing st with
    | nil => intro _ hhit; simp at hhit
    | cons e rest ih =>
      intro hcont hhit
      have hce : e.contAtHead = true := hcont e (by simp)
      by_cases hle : (ctx.endTime : Int) ≤ e.curTime
      · have hdec : decide (e.curTime < (ctx.endTime : Int)) = false :=
          decide_eq_false (not_lt.mpr hle)
        rw [loopRun_cons_break ctx st e rest hce ⟨hpos, hle⟩]
        simp [sleepCount, List.takeWhile_cons, hdec]
      · have hbr : ¬ (0 < ctx.endTime ∧ (ctx.endTime : Int) ≤ e.curTime) :=
          fun hk => hle hk.2
        have hdec : decide (e.curTime < (ctx.endTime : Int)) = true :=
          decide_eq_true (lt_of_not_le hle)
        have hrest : ∃ x ∈ rest, (ctx.endTime : Int) ≤ x.curTime := by
          obtain ⟨x, hx, hxle⟩ := hhit
          rcases List.mem_cons.mp hx with hxe | hxr
          · exact absurd (hxe ▸ hxle) hle
          · exact ⟨x, hxr, hxle⟩
        have ihr := ih (loopIter ctx st e).2
          (fun x hx => hcont x (List.mem_cons_of_mem e hx)) hrest
        rw [loopRun_cons_body ctx st e rest hce hbr]
        refine ⟨ihr.1, ?_⟩
        simp [sleepCount_append, loopIter_sleepCount, List.takeWhile_cons, hdec, ihr.2]
        omega
  · intro ctx st iters h0
    induction iters generalizing st with
    | nil => simp [loopRun]
    | cons e rest ih =>
      by_cases hc : e.contAtHead = true
      · have hbr : ¬ (0 < ctx.endTime ∧ (ctx.endTime : Int) ≤ e.curTime) := by
          rintro ⟨hp, -⟩; omega
        rw [loopRun_cons_body ctx st e rest hc hbr]
        exact ih _
      · have hcf : e.contAtHead = false := by
          revert hc; cases e.contAtHead <;> simp
        rw [loopRun_cons_flag ctx st e rest hcf]
        simp
  · intro env ctx st htime hrun
    obtain ⟨hctx, -⟩ := startup_running env ctx st hrun
    subst hctx
    have hng : ¬ env.cli.time > 0 := by omega
    simp [hng]

/-- C6 witness: with end time 10 and iterations observed at times 5 and 10,
the loop exits through the end-time break after exactly one sleep. -/
theorem c6_witness :
    (loopRun ctxW6 stReload [eA6, eB6]).2.2 = LoopExit.timeExpired ∧
    sleepCount (loopRun ctxW6 stReload [eA6, eB6]).1 =
      ([eA6, eB6].takeWhile (fun e => decide (e.curTime < (ctxW6.endTime : Int)))).length :=
  c6_bounded_duration.1 ctxW6 stReload [eA6, eB6] (by decide) (by decide)
    ⟨eB6, by decide, by decide⟩

/-- C7: cooperative shutdown only at iteration boundaries.  If the
termination flag is still set at an iteration's head check but has been
cleared by the time of the next head check (i.e. the signal arrived during the
iteration, e.g. during its sleep), the iteration's body still runs to
completion — its final action is the full sleep — and the loop exits at the
next boundary, contributing no further actions; so shutdown latency is
bounded by one display interval. -/
theorem c7_flag_exit_at_boundary (ctx : LoopCtx) (st : LoopState) (e e2 : IterEnv)
    (rest : List IterEnv)
    (hc : e.contAtHead = true)
    (hnt : ¬ (0 < ctx.endTime ∧ (ctx.endTime : Int) ≤ e.curTime))
    (hflag : e2.contAtHead = false) :
    (loopRun ctx st (e :: e2 :: rest)).1 = (loopIter ctx st e).1 ∧
    (loopIter ctx st e).1.getLast? = some (Ev.sleep ctx.sleepTime) ∧
    (loopRun ctx st (e :: e2 :: rest)).2.2 = LoopExit.flagCleared := by
  refine ⟨?_, ?_, ?_⟩
  · rw [loopRun_cons_body ctx st e (e2 :: rest) hc hnt,
      loopRun_cons_flag ctx (loopIter ctx st e).2 e2 rest hflag]
    simp
  · unfold loopIter
    exact List.getLast?_concat _
  · rw [loopRun_cons_body ctx st e (e2 :: rest) hc hnt,
      loopRun_cons_flag ctx (loopIter ctx st e).2 e2 rest hflag]

/-- C7 witness: the boundary-exit behaviour at a concrete two-iteration run
in which the flag is observed cleared at the second head check. -/
theorem c7_witness :
    (loopRun ctxPlain stReload [eC7, eC7b]).1 = (loopIter ctxPlain stReload eC7).1 ∧
    (loopIter ctxPlain stReload eC7).1.getLast? = some (Ev.sleep ctxPlain.sleepTime) ∧
    (loopRun ctxPlain stReload [eC7, eC7b]).2.2 = LoopExit.flagCleared :=
  c7_flag_exit_at_boundary ctxPlain stReload eC7 eC7b [] (by decide) (by decide) (by decide)

/-- C8: stale-pin self-healing.  Whenever startup reaches the pin phase with
pinning enabled, the trace first attempts an unpin of the same path whose
errors are ignored — no unpin warning can appear at startup, whatever the
unpin result — then pins; a pin failure produces only a warning, and startup
enters the control loop regardless of both the unpin and pin results. -/
theorem c8_stale_pin_self_heals (env : Env) (name : String)
    (hh : env.cli.help = false) (hl : env.loadConfigRet = 0)
    (hls : env.cli.list = false) (hif : env.cfg0.interface = some name)
    (hrl : env.setrlimitFails = false)
    (hidx : ¬ int32OfUInt env.ifNameToIndexRet < 0)
    (hobj : env.loadObjOk = true) (hat : env.attachRet = 0)
    (hms : ¬ env.mapStatsFd < 0) (hmf : ¬ env.mapFwdRulesFd < 0)
    (hpin : env.cfg0.pin_maps = true) :
    (startup env).1 =
      [Ev.loadObj, Ev.attach, Ev.unpinMap, Ev.pinMap] ++
        (if env.pinRet ≠ 0 then [Ev.warnPin] else [Ev.pinOkLog]) ++ [Ev.updateRules] ∧
    Ev.warnUnpin ∉ (startup env).1 ∧
    isRunning (startup env).2 = true := by
  unfold startup unpin_needed_maps
  rw [hif]
  refine ⟨?_, ?_, ?_⟩ <;>
    simp [hh, hl, hls, hrl, hidx, hobj, hat, hms, hmf, hpin, isRunning] <;>
    split_ifs <;> simp_all

/-- C8 witness: self-healing at a concrete environment whose pre-pin unpin
fails (stale pin, result 3) and whose pin then succeeds. -/
theorem c8_witness :
    (startup envPin).1 =
      [Ev.loadObj, Ev.attach, Ev.unpinMap, Ev.pinMap] ++
        (if envPin.pinRet ≠ 0 then [Ev.warnPin] else [Ev.pinOkLog]) ++ [Ev.updateRules] ∧
    Ev.warnUnpin ∉ (startup envPin).1 ∧
    isRunning (startup envPin).2 = true :=
  c8_stale_pin_self_heals envPin "eth0" (by decide) (by decide) (by decide) (by decide)
    (by decide) (by decide) (by decide) (by decide) (by decide) (by decide) (by decide)

/-- C9: the sleep duration is frozen before the loop.  Whenever startup
enters the control loop, the loop's sleep constant equals the initial
configuration's display interval times 1000; and every sleep action ever
performed by the loop has exactly that duration — a successful reload that
installs a configuration with a different display interval leaves it
unchanged. -/
theorem c9_sleep_time_fixed (env : Env) (ctx : LoopCtx) (st : LoopState)
    (iters : List IterEnv) (n : Nat) :
    ((startup env).2 = StartOutcome.running ctx st →
      ctx.sleepTime = env.cfg0.stdout_update_time * 1000 % UINT32_MOD) ∧
    (Ev.sleep n ∈ (loopRun ctx st iters).1 → n = ctx.sleepTime) := by
  constructor
  · intro hrun
    obtain ⟨hctx, -⟩ := startup_running env ctx st hrun
    subst hctx
    rfl
  · induction iters generalizing st with
    | nil => intro h; simp [loopRun] at h
    | cons e rest ih =>
      intro h
      by_cases hc : e.contAtHead = true
      · by_cases hbr : 0 < ctx.endTime ∧ (ctx.endTime : Int) ≤ e.curTime
        · rw [loopRun_cons_break ctx st e rest hc hbr] at h
          simp at h
        · rw [loopRun_cons_body ctx st e rest hc hbr] at h
          rcases List.mem_append.mp h with h | h
          · exact loopIter_sleep_mem ctx st e n h
          · exact ih _ h
      · have hcf : e.contAtHead = false := by
          revert hc; cases e.contAtHead <;> simp
        rw [loopRun_cons_flag ctx st e rest hcf] at h
        simp at h

/-- C9 witness: a run whose initial display interval is 2 seconds and whose
single iteration reloads a configuration with a 7-second display interval;
the loop context's sleep constant is 2000 and the observed sleep of 2000
microseconds milliseconds-scaled matches it. -/
theorem c9_witness :
    ctxW9.sleepTime = envW9.cfg0.stdout_update_time * 1000 % UINT32_MOD ∧
    2000 = ctxW9.sleepTime :=
  ⟨(c9_sleep_time_fixed envW9 ctxW9 stW9 [eW9] 2000).1 (by decide),
   (c9_sleep_time_fixed envW9 ctxW9 stW9 [eW9] 2000).2 (by decide)⟩

/-- C10: on a due reload whose config parse fails, the failure is logged as a
warning, the rule-table recompute is still triggered with the in-memory
configuration, and both the last-reload and last-check timestamps are still
updated. -/
theorem c10_parse_failure_still_updates (ctx : LoopCtx) (st : LoopState) (e : IterEnv)
    (hdue : st.cfg.update_time > 0 ∧ e.curTime - st.lastUpdateCheck > st.cfg.update_time)
    (hmt : e.statOk = true ∧ e.mtime > st.lastConfigCheck)
    (hfail : e.loadRet ≠ 0) :
    Ev.warnReloadParse ∈ (loopIter ctx st e).1 ∧
    Ev.updateRules ∈ (loopIter ctx st e).1 ∧
    (loopIter ctx st e).2.lastConfigCheck = e.timeAfterReload ∧
    (loopIter ctx st e).2.lastUpdateCheck = e.timeAfterCheck := by
  unfold loopIter reloadStep
  simp [hdue, hmt, hfail]

/-- C10 witness: the parse-failure behaviour at the concrete due reload at
time 61 whose `load_config` returns 3. -/
theorem c10_witness :
    Ev.warnReloadParse ∈ (loopIter ctxPlain stReload eW10).1 ∧
    Ev.updateRules ∈ (loopIter ctxPlain stReload eW10).1 ∧
    (loopIter ctxPlain stReload eW10).2.lastConfigCheck = eW10.timeAfterReload ∧
    (loopIter ctxPlain stReload eW10).2.lastUpdateCheck = eW10.timeAfterCheck :=
  c10_parse_failure_still_updates ctxPlain stReload eW10 (by decide) (by decide) (by decide)

end XdpProxy
